import Mathlib

/-!
Shallow embedding of the session clarification state machine of
`backend/session_routes.py` (with the data model of `backend/models.py`).

The external generation service (OpenAI chat completion) is modelled as an
oracle `Gen : GenRequest → Option String`: `none` models any exception raised
by the call (ServiceError), `some raw` the returned message content.  Each
endpoint additionally returns the list of generation requests it issued, so
that theorems can speak about which prompts were sent to the service.

The database session (SQLAlchemy) is modelled as an explicit `DB` record with
the rows of the `sessions` and `conversations` tables that the clarification
endpoints touch.
-/

namespace MPF

/-- Request sent to the external generation service: the arguments of
`client.chat.completions.create` that the source passes (model, the single
user message, temperature, max_tokens). -/
structure GenRequest where
  model : String
  prompt : String
  temperature : ℚ
  max_tokens : Nat
deriving DecidableEq, Repr

/-- Oracle modelling the external generation service: `none` = the call
raised (ServiceError), `some raw` = the returned message content. -/
def Gen : Type := GenRequest → Option String

/-- Row of the `conversations` table as far as the clarification endpoints
write it: `message_metadata` is `{"question_index": i}` (modelled as the
index) or absent. -/
structure Conversation where
  session_id : String
  message_type : String
  content : String
  message_metadata : Option Nat
deriving DecidableEq, Repr

/-- The session context blob written by `start_session`: user input, optional
pdf content, the accumulated clarification answers and all questions asked. -/
structure Context where
  user_input : String
  pdf_content : Option String
  clarifications : List String
  questions_asked : List String
deriving DecidableEq, Repr

/-- Row of the `sessions` table as far as the clarification endpoints use it. -/
structure Session where
  session_id : String
  user_id : Nat
  status : String
  context : Context
deriving DecidableEq, Repr

/-- The two tables the clarification endpoints touch. -/
structure DB where
  sessions : List Session
  conversations : List Conversation
deriving DecidableEq, Repr

/-- Pydantic request model `SessionCreate`. -/
structure SessionCreate where
  user_input : String
  pdf_content : Option String
deriving DecidableEq, Repr

/-- Pydantic response model `SessionResponse`. -/
structure SessionResponse where
  session_id : String
  status : String
  context : Context
deriving DecidableEq, Repr

/-- Pydantic request model `ClarificationRequest`. -/
structure ClarificationRequest where
  session_id : String
  user_response : String
deriving DecidableEq, Repr

/-- Pydantic response model `ClarificationResponse`. -/
structure ClarificationResponse where
  session_id : String
  questions : List String
  status : String
deriving DecidableEq, Repr

/-- Pydantic validation of a `SessionCreate` body: `user_input : str` is a
required field (a missing field is a ValidationError, rejected before the
handler runs), `pdf_content : Optional[str] = None`.  No emptiness constraint
is declared on `user_input`. -/
def validateSessionCreate (user_input : Option String) (pdf_content : Option String) :
    Option SessionCreate :=
  match user_input with
  | none => none
  | some u => some ⟨u, pdf_content⟩

/-! ### A model of `json.loads` on string arrays

`analyze_context_for_clarification` calls `json.loads` on a text already known
to start with `[` and end with `]`, and treats the result as a list of
question strings.  We model `json.loads` restricted to JSON arrays of plain
string literals (the shape the prompt demands): any other document, including
arrays with non-string elements and `\u` escapes, is treated as a parse
failure.  A failure of `json.loads` raises inside the `try`, so it lands in
the same `except` branch as a ServiceError. -/

/-- JSON whitespace. -/
def isJsonWs (c : Char) : Bool :=
  c = ' ' ∨ c = '\n' ∨ c = '\t' ∨ c = '\r'

/-- Drop leading JSON whitespace. -/
def skipWs (cs : List Char) : List Char :=
  cs.dropWhile isJsonWs

/-- JSON string escape characters (without `\u`, which we treat as a failure):
`\"`, `\\` and `\/` denote themselves, the letters n, t, r, b, f their
control characters. -/
def escChar (e : Char) : Option Char :=
  if e = '"' ∨ e = '\\' ∨ e = '/' then some e
  else if e = 'n' then some (Char.ofNat 10)
  else if e = 't' then some (Char.ofNat 9)
  else if e = 'r' then some (Char.ofNat 13)
  else if e = 'b' then some (Char.ofNat 8)
  else if e = 'f' then some (Char.ofNat 12)
  else none

/-- Parse the body of a JSON string literal (the opening quote already
consumed), returning the decoded string and the remaining characters. -/
def parseStrChars : List Char → Option (String × List Char)
  | [] => none
  | '"' :: cs => some ("", cs)
  | '\\' :: [] => none
  | '\\' :: e :: cs =>
    match escChar e with
    | none => none
    | some ec =>
      match parseStrChars cs with
      | none => none
      | some (s, r) => some (String.singleton ec ++ s, r)
  | c :: cs =>
    match parseStrChars cs with
    | none => none
    | some (s, r) => some (String.singleton c ++ s, r)

/-- Parse the comma-separated string literals of a nonempty JSON array (the
opening bracket consumed, leading whitespace skipped); fuelled recursion. -/
def parseItemsAux : Nat → List Char → Option (List String)
  | 0, _ => none
  | fuel + 1, '"' :: cs =>
    match parseStrChars cs with
    | none => none
    | some (s, r) =>
      match skipWs r with
      | ',' :: r2 =>
        match parseItemsAux fuel (skipWs r2) with
        | none => none
        | some ss => some (s :: ss)
      | ']' :: r2 => if skipWs r2 = [] then some [s] else none
      | _ => none
  | _ + 1, _ => none

/-- `json.loads`, restricted to arrays of plain JSON strings: whole-document
parse of `[ "s1", "s2", ... ]` (or `[]`); anything else is `none`. -/
def parseJsonStringList (s : String) : Option (List String) :=
  match skipWs s.data with
  | '[' :: rest =>
    match skipWs rest with
    | ']' :: tail => if skipWs tail = [] then some [] else none
    | body => parseItemsAux (body.length + 1) body
  | _ => none

/-! ### Python string methods

The handlers use Python's `str.strip`, `str.startswith`, `str.endswith` and
`str.lower`; we model them over the character list of the string (for the
ASCII texts involved). -/

/-- Whitespace removed by Python `str.strip()` (the ASCII part). -/
def pyIsSpace (c : Char) : Bool :=
  c = ' ' ∨ c = '\t' ∨ c = '\n' ∨ c = '\r' ∨ c = Char.ofNat 11 ∨ c = Char.ofNat 12

/-- Python `s.strip()`: drop leading and trailing whitespace. -/
def pyStrip (s : String) : String :=
  ⟨((s.data.dropWhile pyIsSpace).reverse.dropWhile pyIsSpace).reverse⟩

/-- Python `s.startswith(pre)`. -/
def pyStartsWith (s pre : String) : Bool :=
  pre.data.isPrefixOf s.data

/-- Python `s.endswith(suf)`. -/
def pyEndsWith (s suf : String) : Bool :=
  suf.data.isSuffixOf s.data

/-- Python `s.lower()` (the ASCII part). -/
def pyLower (s : String) : String :=
  ⟨s.data.map Char.toLower⟩

/-! ### Prompts and fallbacks of `session_routes.py` -/

/-- The `context` string of `analyze_context_for_clarification`: the user
input, and the pdf content truncated to its first 1000 characters when it is
truthy (`if pdf_content:` — Python truthiness makes `None` and the empty
string falsy). -/
def contextString (user_input : String) (pdf_content : Option String) : String :=
  "User input: " ++ user_input ++
    (match pdf_content with
     | none => ""
     | some p => if p = "" then "" else "\nPDF content: " ++ String.mk (p.data.take 1000) ++ "...")

/-- The clarification prompt (the f-string of
`analyze_context_for_clarification`). -/
def buildClarificationPrompt (user_input : String) (pdf_content : Option String) : String :=
  "\n    Analyze this user's request for multi-persona feedback and generate 2-4 intelligent clarifying questions.\n    \n    Context: "
    ++ contextString user_input pdf_content
    ++ "\n    \n    Generate questions that would help understand:\n    - The user's specific goals and concerns\n    - Their knowledge level and background\n    - What kind of feedback they're seeking\n    - Any ambiguities that would affect agent creation\n    \n    Return ONLY a JSON array of questions, no explanations:\n    [\"Question 1?\", \"Question 2?\", \"Question 3?\"]\n    "

/-- A single quote character, for Python list reprs. -/
def sq : String := String.singleton (Char.ofNat 39)

/-- Python `repr` of a list of strings as interpolated by an f-string
(`{clarifications}`), for strings without quote or escape characters. -/
def pyListRepr (l : List String) : String :=
  "[" ++ String.intercalate ", " (l.map (fun s => sq ++ s ++ sq)) ++ "]"

/-- The readiness prompt (the f-string of `determine_agent_creation_ready`). -/
def buildReadinessPrompt (user_input : String) (clarifications : List String) : String :=
  "\n    Based on this conversation context, determine if we have enough information to create meaningful AI agents.\n    \n    User's original input: "
    ++ user_input
    ++ "\n    Clarifications provided: " ++ pyListRepr clarifications
    ++ "\n    \n    Answer with ONLY " ++ sq ++ "yes" ++ sq ++ " or " ++ sq ++ "no" ++ sq
    ++ ":\n    "

/-- The fallback question list of the `else` branch of
`analyze_context_for_clarification` (response does not look like a JSON
array). -/
def fallback_questions_parse : List String :=
  ["What specific aspect of this topic concerns you most?",
   "What kind of feedback are you looking for - technical, strategic, or user experience?",
   "What's your background with this topic?"]

/-- The fallback question list of the `except` branch of
`analyze_context_for_clarification` (the service call or `json.loads`
raised).  Note its second entry differs from `fallback_questions_parse`. -/
def fallback_questions_exception : List String :=
  ["What specific aspect of this topic concerns you most?",
   "What kind of feedback are you looking for?",
   "What's your background with this topic?"]

/-! ### The synthesizer and the readiness evaluator -/

/-- The generation request issued by `analyze_context_for_clarification`. -/
def clarificationGenRequest (user_input : String) (pdf_content : Option String) : GenRequest :=
  ⟨"gpt-4", buildClarificationPrompt user_input pdf_content, 0.7, 300⟩

/-- `analyze_context_for_clarification`: issue one generation request; if the
call raised, return the exception fallback; otherwise strip the content and,
when it starts with `[` and ends with `]`, parse it with `json.loads` (a
parse failure raises into the same `except` branch); otherwise substitute the
parse fallback; truncate the non-exception result to at most 4 questions.
Also returns the list of generation requests issued. -/
def analyze_context_for_clarification (user_input : String) (pdf_content : Option String)
    (gen : Gen) : List String × List GenRequest :=
  let req := clarificationGenRequest user_input pdf_content
  match gen req with
  | none => (fallback_questions_exception, [req])
  | some raw =>
    let questions_text := pyStrip raw
    if pyStartsWith questions_text "[" && pyEndsWith questions_text "]" then
      match parseJsonStringList questions_text with
      | some questions => (questions.take 4, [req])
      | none => (fallback_questions_exception, [req])
    else
      (fallback_questions_parse.take 4, [req])

/-- The generation request issued by `determine_agent_creation_ready`. -/
def readinessGenRequest (user_input : String) (clarifications : List String) : GenRequest :=
  ⟨"gpt-4", buildReadinessPrompt user_input clarifications, 0.3, 10⟩

/-- `determine_agent_creation_ready`: short-circuit to `false` below 2
clarifications without any service call; otherwise ask the service and accept
exactly a stripped lowercased `"yes"`; if the call raised, fall back to
`len(clarifications) >= 3`.  Also returns the list of generation requests
issued. -/
def determine_agent_creation_ready (context : Context) (gen : Gen) :
    Bool × List GenRequest :=
  if context.clarifications.length < 2 then (false, [])
  else
    let req := readinessGenRequest context.user_input context.clarifications
    match gen req with
    | none => (decide (3 ≤ context.clarifications.length), [req])
    | some raw => (pyLower (pyStrip raw) == "yes", [req])

/-! ### The endpoint handlers -/

/-- `db.query(Session).filter(Session.session_id == sid).first()`. -/
def find_session (db : DB) (sid : String) : Option Session :=
  db.sessions.find? (fun s => s.session_id == sid)

/-- Commit of a mutated session row: replace the row with the same
`session_id` (unique by schema). -/
def update_session (db : DB) (s : Session) : DB :=
  ⟨db.sessions.map (fun t => if t.session_id == s.session_id then s else t),
   db.conversations⟩

/-- Conversation rows recorded for a batch of questions: for each question,
`message_metadata = {"question_index": questions.index(question)}` — Python
`list.index` returns the index of the FIRST occurrence. -/
def questionConversations (sid : String) (questions : List String) : List Conversation :=
  questions.map (fun q => ⟨sid, "clarification", q, some (questions.indexOf q)⟩)

/-- `start_session`: synthesize the initial questions, create the session row
(status `"clarifying"`, `user_id` hard-coded to 1 — the source ignores
`current_user`, see its TODO), record one conversation row per question, and
return the response together with the generation requests issued.  The fresh
uuid is passed in as `session_id`. -/
def start_session (session_data : SessionCreate) (current_user : String)
    (session_id : String) (gen : Gen) (db : DB) :
    DB × SessionResponse × List GenRequest :=
  let qr := analyze_context_for_clarification session_data.user_input
    session_data.pdf_content gen
  let questions := qr.1
  let ctx : Context :=
    ⟨session_data.user_input, session_data.pdf_content, [], questions⟩
  let session : Session := ⟨session_id, 1, "clarifying", ctx⟩
  let db2 : DB :=
    ⟨db.sessions ++ [session],
     db.conversations ++ questionConversations session_id questions⟩
  (db2, ⟨session_id, "clarifying", ctx⟩, qr.2)

/-- `provide_clarification`: 404 (`none`) on an unknown session id; otherwise
record the user answer as a conversation row, append it to the context's
clarifications, and run the readiness check on the updated context.  If
ready, set the status to `"creating_agents"` and answer
`"ready_for_agents"` with no questions; otherwise synthesize follow-up
questions from the context's user input and pdf content, record and append
them, and answer `"clarifying"`.  Also returns the generation requests
issued, readiness request first. -/
def provide_clarification (clarification : ClarificationRequest) (gen : Gen)
    (db : DB) : DB × Option ClarificationResponse × List GenRequest :=
  match find_session db clarification.session_id with
  | none => (db, none, [])
  | some session =>
    let db1 : DB :=
      ⟨db.sessions,
       db.conversations ++ [⟨clarification.session_id, "user", clarification.user_response, none⟩]⟩
    let ctx1 : Context :=
      { session.context with
        clarifications := session.context.clarifications ++ [clarification.user_response] }
    let rr := determine_agent_creation_ready ctx1 gen
    if rr.1 then
      let session1 : Session := { session with status := "creating_agents", context := ctx1 }
      (update_session db1 session1,
       some ⟨clarification.session_id, [], "ready_for_agents"⟩, rr.2)
    else
      let fq := analyze_context_for_clarification ctx1.user_input ctx1.pdf_content gen
      let follow_up_questions := fq.1
      let ctx2 : Context :=
        { ctx1 with questions_asked := ctx1.questions_asked ++ follow_up_questions }
      let session1 : Session := { session with context := ctx2 }
      let db2 : DB :=
        ⟨db1.sessions,
         db1.conversations ++ questionConversations clarification.session_id follow_up_questions⟩
      (update_session db2 session1,
       some ⟨clarification.session_id, follow_up_questions, "clarifying"⟩,
       rr.2 ++ fq.2)

/-- `get_session_status`: 404 (`none`) on an unknown session id, otherwise a
pure read of status and context; the database is returned unchanged. -/
def get_session_status (session_id : String) (db : DB) :
    DB × Option SessionResponse :=
  match find_session db session_id with
  | none => (db, none)
  | some s => (db, some ⟨s.session_id, s.status, s.context⟩)

/-- The status order of `models.py` (`clarifying, creating_agents, active,
completed`). -/
def statusRank : String → Nat
  | "creating_agents" => 1
  | "active" => 2
  | "completed" => 3
  | _ => 0

/-! ### Helper lemmas -/

/-- The synthesizer issues exactly one generation request, the clarification
request, on every path. -/
theorem analyze_trace (user_input : String) (pdf_content : Option String) (gen : Gen) :
    (analyze_context_for_clarification user_input pdf_content gen).2
      = [clarificationGenRequest user_input pdf_content] := by
  cases hg : gen (clarificationGenRequest user_input pdf_content) with
  | none => simp [analyze_context_for_clarification, hg]
  | some raw =>
    by_cases hc : (pyStartsWith (pyStrip raw) "[" && pyEndsWith (pyStrip raw) "]") = true
    · cases hp : parseJsonStringList (pyStrip raw) <;>
        simp [analyze_context_for_clarification, hg, hc, hp]
    · simp [analyze_context_for_clarification, hg, hc]

/-- The readiness evaluator issues no request below 2 clarifications and
exactly the readiness request otherwise. -/
theorem determine_trace (context : Context) (gen : Gen) :
    (determine_agent_creation_ready context gen).2
      = if context.clarifications.length < 2 then []
        else [readinessGenRequest context.user_input context.clarifications] := by
  by_cases h : context.clarifications.length < 2
  · simp [determine_agent_creation_ready, h]
  · cases hg : gen (readinessGenRequest context.user_input context.clarifications) <;>
      simp [determine_agent_creation_ready, h, hg]

/-- Replacing the row a `find?` returned (by a row with the same id) makes
`find?` return the replacement. -/
theorem find?_update_self {l : List Session} {sid : String} {s s1 : Session}
    (h : l.find? (fun t => t.session_id == sid) = some s)
    (hid : s1.session_id = s.session_id) :
    (l.map (fun t => if t.session_id == s1.session_id then s1 else t)).find?
      (fun t => t.session_id == sid) = some s1 := by
  induction l with
  | nil => simp at h
  | cons a l ih =>
    cases ha : (a.session_id == sid) with
    | true =>
      simp only [List.find?_cons, ha] at h
      obtain rfl : a = s := by injection h
      have h1 : (a.session_id == s1.session_id) = true := by simp [hid]
      have h2 : (s1.session_id == sid) = true := by rw [hid]; exact ha
      simp only [List.map_cons, if_pos h1, List.find?_cons, h2]
    | false =>
      simp only [List.find?_cons, ha] at h
      have hs := List.find?_some h
      simp only [beq_iff_eq] at hs
      have h1 : ¬ (a.session_id == s1.session_id) = true := by
        rw [hid, hs]
        simp [ha]
      simp only [List.map_cons, if_neg h1, List.find?_cons, ha]
      exact ih h

/-- `find_session` after `update_session` with a row of the same id returns
the replacement (the conversations table is irrelevant to the lookup). -/
theorem find_session_update_self {db : DB} {sid : String} {s s1 : Session}
    (convs : List Conversation)
    (h : find_session db sid = some s) (hid : s1.session_id = s.session_id) :
    find_session (update_session ⟨db.sessions, convs⟩ s1) sid = some s1 :=
  find?_update_self h hid

/-- Unfolding of `provide_clarification` once the session row is found. -/
theorem provide_clarification_eq (req : ClarificationRequest) (gen : Gen) (db : DB)
    (s : Session) (h : find_session db req.session_id = some s) :
    provide_clarification req gen db =
      (let ctx1 : Context :=
        { s.context with clarifications := s.context.clarifications ++ [req.user_response] }
       let db1 : DB := ⟨db.sessions,
        db.conversations ++ [⟨req.session_id, "user", req.user_response, none⟩]⟩
       let rr := determine_agent_creation_ready ctx1 gen
       if rr.1 then
        (update_session db1 { s with status := "creating_agents", context := ctx1 },
         some ⟨req.session_id, [], "ready_for_agents"⟩, rr.2)
       else
        let fq := analyze_context_for_clarification ctx1.user_input ctx1.pdf_content gen
        let ctx2 : Context := { ctx1 with questions_asked := ctx1.questions_asked ++ fq.1 }
        (update_session ⟨db1.sessions,
            db1.conversations ++ questionConversations req.session_id fq.1⟩
           { s with context := ctx2 },
         some ⟨req.session_id, fq.1, "clarifying"⟩, rr.2 ++ fq.2)) := by
  simp only [provide_clarification, h]

/-- Under a total service outage the synthesizer returns the exception
fallback. -/
theorem analyze_outage (u : String) (p : Option String) (gen : Gen)
    (hgen : ∀ r, gen r = none) :
    (analyze_context_for_clarification u p gen).1 = fallback_questions_exception := by
  simp [analyze_context_for_clarification, hgen]

/-- Under a total service outage the readiness evaluator decides exactly
`3 ≤ len(clarifications)`. -/
theorem determine_outage (context : Context) (gen : Gen) (hgen : ∀ r, gen r = none) :
    (determine_agent_creation_ready context gen).1
      = decide (3 ≤ context.clarifications.length) := by
  by_cases hl : context.clarifications.length < 2
  · simp only [determine_agent_creation_ready, if_pos hl]
    have : ¬ (3 ≤ context.clarifications.length) := by omega
    simp [this]
  · simp [determine_agent_creation_ready, hl, hgen]

/-! ### Claims -/

/-- C10: on every clarify call on an existing session, readiness is evaluated
on the context with the submitted answer already appended, and the external
readiness service is consulted if and only if the answer count including the
current answer is at least 2: when it is, the first generation request issued
is the readiness request over the appended answer list; when it is not, the
only request issued is the follow-up synthesis request. -/
theorem C10_readiness_gate (req : ClarificationRequest) (gen : Gen) (db : DB)
    (s : Session) (h : find_session db req.session_id = some s) :
    (2 ≤ s.context.clarifications.length + 1 →
      (provide_clarification req gen db).2.2.head? =
        some (readinessGenRequest s.context.user_input
          (s.context.clarifications ++ [req.user_response]))) ∧
    (s.context.clarifications.length + 1 < 2 →
      (provide_clarification req gen db).2.2 =
        [clarificationGenRequest s.context.user_input s.context.pdf_content]) := by
  rw [provide_clarification_eq req gen db s h]
  simp only
  constructor
  · intro h2
    have hlen : ¬ (({ s.context with
        clarifications := s.context.clarifications ++ [req.user_response] } :
          Context).clarifications.length < 2) := by
      simp only [List.length_append, List.length_cons, List.length_nil]
      omega
    have htr := determine_trace
      { s.context with clarifications := s.context.clarifications ++ [req.user_response] } gen
    rw [if_neg hlen] at htr
    by_cases hb : (determine_agent_creation_ready
        { s.context with clarifications := s.context.clarifications ++ [req.user_response] }
        gen).1 = true
    · rw [if_pos hb, htr]
      rfl
    · rw [if_neg hb]
      simp [htr]
  · intro h2
    have hlen : ({ s.context with
        clarifications := s.context.clarifications ++ [req.user_response] } :
          Context).clarifications.length < 2 := by
      simp only [List.length_append, List.length_cons, List.length_nil]
      omega
    have hd : determine_agent_creation_ready
        { s.context with clarifications := s.context.clarifications ++ [req.user_response] }
        gen = (false, []) := by
      have h0 : s.context.clarifications.length = 0 := by omega
      simp [determine_agent_creation_ready, h0]
    rw [hd]
    simp [analyze_trace]

/-- C10 witness: a clarify call on a session with exactly one prior answer,
under outage, does consult the readiness service (its request is the first
one issued). -/
theorem C10_readiness_gate_witness :
    (provide_clarification ⟨"s6", "a2"⟩ (fun _ => none)
        ⟨[⟨"s6", 1, "clarifying", ⟨"u", none, ["a1"], ["q1", "q2", "q3"]⟩⟩], []⟩).2.2.head? =
      some (readinessGenRequest "u" (["a1"] ++ ["a2"])) :=
  (C10_readiness_gate ⟨"s6", "a2"⟩ (fun _ => none)
    ⟨[⟨"s6", 1, "clarifying", ⟨"u", none, ["a1"], ["q1", "q2", "q3"]⟩⟩], []⟩
    ⟨"s6", 1, "clarifying", ⟨"u", none, ["a1"], ["q1", "q2", "q3"]⟩⟩ rfl).1 (by decide)

/-- C5: when every call to the generation service fails, `start` still
returns exactly 3 fallback questions, and `clarify` transitions to
`creating_agents` (answering `ready_for_agents` with no questions) if and
only if the answer list including the newly appended answer has length at
least 3, and otherwise answers the fallback questions with status
`clarifying`. -/
theorem C5_outage_progress (gen : Gen) (hgen : ∀ r, gen r = none)
    (sd : SessionCreate) (user sid : String) (db : DB)
    (creq : ClarificationRequest) (db2 : DB) (s : Session)
    (h : find_session db2 creq.session_id = some s) :
    ((start_session sd user sid gen db).2.1.context.questions_asked
        = fallback_questions_exception ∧ fallback_questions_exception.length = 3) ∧
    (3 ≤ s.context.clarifications.length + 1 →
      (provide_clarification creq gen db2).2.1 =
        some ⟨creq.session_id, [], "ready_for_agents"⟩ ∧
      (find_session (provide_clarification creq gen db2).1 creq.session_id).map
        (fun t => t.status) = some "creating_agents") ∧
    (s.context.clarifications.length + 1 < 3 →
      (provide_clarification creq gen db2).2.1 =
        some ⟨creq.session_id, fallback_questions_exception, "clarifying"⟩) := by
  refine ⟨⟨?_, rfl⟩, ?_, ?_⟩
  · simp [start_session, analyze_outage _ _ gen hgen]
  · intro h3
    rw [provide_clarification_eq creq gen db2 s h]
    simp only
    have ht : (determine_agent_creation_ready
        { s.context with clarifications := s.context.clarifications ++ [creq.user_response] }
        gen).1 = true := by
      rw [determine_outage _ gen hgen]
      simp only [List.length_append, List.length_cons, List.length_nil,
        decide_eq_true_eq]
      omega
    rw [if_pos ht]
    refine ⟨rfl, ?_⟩
    show (find_session (update_session _ _) creq.session_id).map (fun t => t.status)
      = some "creating_agents"
    have hf : find_session (update_session
        ⟨db2.sessions, db2.conversations ++ [⟨creq.session_id, "user", creq.user_response, none⟩]⟩
        { s with
          status := "creating_agents",
          context := { s.context with
            clarifications := s.context.clarifications ++ [creq.user_response] } })
        creq.session_id
        = some { s with
            status := "creating_agents",
            context := { s.context with
              clarifications := s.context.clarifications ++ [creq.user_response] } } :=
      find_session_update_self _ h rfl
    rw [hf]
    rfl
  · intro h3
    rw [provide_clarification_eq creq gen db2 s h]
    simp only
    have ht : ¬ ((determine_agent_creation_ready
        { s.context with clarifications := s.context.clarifications ++ [creq.user_response] }
        gen).1 = true) := by
      rw [determine_outage _ gen hgen]
      simp only [List.length_append, List.length_cons, List.length_nil,
        decide_eq_true_eq]
      omega
    rw [if_neg ht]
    simp [analyze_outage _ _ gen hgen]

/-- C5 witness: outage, session with two prior answers, third answer arrives:
the response is `ready_for_agents` with no questions. -/
theorem C5_outage_progress_witness :
    (provide_clarification ⟨"s8", "c"⟩ (fun _ => none)
        ⟨[⟨"s8", 1, "clarifying", ⟨"u", none, ["a", "b"], ["q"]⟩⟩], []⟩).2.1 =
      some ⟨"s8", [], "ready_for_agents"⟩ :=
  ((C5_outage_progress (fun _ => none) (fun _ => rfl) ⟨"pitch", none⟩ "u" "sid1" ⟨[], []⟩
      ⟨"s8", "c"⟩ ⟨[⟨"s8", 1, "clarifying", ⟨"u", none, ["a", "b"], ["q"]⟩⟩], []⟩
      ⟨"s8", 1, "clarifying", ⟨"u", none, ["a", "b"], ["q"]⟩⟩ rfl).2.1 (by decide)).1

/-- C6: for the input "I want feedback on my startup pitch", when the service
returns a string whose stripped text does not both start with `[` and end
with `]`, start returns exactly the three parse-fallback questions and
status `clarifying`. -/
theorem C6_start_nonjson (raw : String)
    (hraw : (pyStartsWith (pyStrip raw) "[" && pyEndsWith (pyStrip raw) "]") = false)
    (user sid : String) (db : DB) :
    (start_session ⟨"I want feedback on my startup pitch", none⟩ user sid
        (fun _ => some raw) db).2.1.context.questions_asked =
      ["What specific aspect of this topic concerns you most?",
       "What kind of feedback are you looking for - technical, strategic, or user experience?",
       "What's your background with this topic?"] ∧
    (start_session ⟨"I want feedback on my startup pitch", none⟩ user sid
        (fun _ => some raw) db).2.1.status = "clarifying" := by
  constructor
  · simp [start_session, analyze_context_for_clarification, hraw, fallback_questions_parse]
  · rfl

/-- C6 witness: a concrete non-JSON service response. -/
theorem C6_start_nonjson_witness :
    (start_session ⟨"I want feedback on my startup pitch", none⟩ "u" "s5"
        (fun _ => some "I cannot answer that") ⟨[], []⟩).2.1.context.questions_asked =
      ["What specific aspect of this topic concerns you most?",
       "What kind of feedback are you looking for - technical, strategic, or user experience?",
       "What's your background with this topic?"] ∧
    (start_session ⟨"I want feedback on my startup pitch", none⟩ "u" "s5"
        (fun _ => some "I cannot answer that") ⟨[], []⟩).2.1.status = "clarifying" :=
  C6_start_nonjson "I cannot answer that" rfl "u" "s5" ⟨[], []⟩

/-- C9: the code hard-codes `user_id = 1` for every created session (its own
TODO comment acknowledges `current_user` should be used): the created row's
ownership field is the constant 1 whatever identity is attached, so sessions
of distinct identities do NOT carry distinct owning-identity references. -/
theorem C9_user_id_hardcoded (sd : SessionCreate) (u1 u2 sid1 sid2 : String)
    (g1 g2 : Gen) (dba dbb : DB) :
    ((start_session sd u1 sid1 g1 dba).1.sessions.getLast?).map (fun t => t.user_id) = some 1 ∧
    ((start_session sd u2 sid2 g2 dbb).1.sessions.getLast?).map (fun t => t.user_id) = some 1 := by
  constructor <;> simp [start_session, List.getLast?_concat]

/-- C8 counterexample: the empty user input passes pydantic validation, and
`start_session` then issues a generation request — no ValidationError is
surfaced before the external call. -/
theorem C8_counterexample :
    validateSessionCreate (some "") none = some ⟨"", none⟩ ∧
    ((start_session ⟨"", none⟩ "u" "sid" (fun _ => none) ⟨[], []⟩).2.2).length = 1 :=
  ⟨rfl, rfl⟩

/-- C8 amended: a request missing the required `user_input` field is rejected
by model validation before the handler (and hence any external call) runs;
but any string — the empty string included — is accepted, and start then
always issues exactly one generation request over that input. -/
theorem C8_validation (pdf : Option String) (u user sid : String) (gen : Gen) (db : DB) :
    validateSessionCreate none pdf = none ∧
    (∀ sd, validateSessionCreate (some u) pdf = some sd →
      (start_session sd user sid gen db).2.2 = [clarificationGenRequest u pdf]) := by
  refine ⟨rfl, ?_⟩
  intro sd hsd
  obtain rfl : sd = ⟨u, pdf⟩ := by
    have h' : (some (⟨u, pdf⟩ : SessionCreate)) = some sd := hsd
    injection h' with h''
    exact h''.symm
  simp [start_session, analyze_trace]

/-- C8 witness: the missing-field case is rejected, the empty-string case
reaches the service. -/
theorem C8_validation_witness :
    validateSessionCreate none none = none ∧
    (start_session ⟨"", none⟩ "u" "sid" (fun _ => none) ⟨[], []⟩).2.2 =
      [clarificationGenRequest "" none] :=
  ⟨(C8_validation none "" "u" "sid" (fun _ => none) ⟨[], []⟩).1,
   (C8_validation none "" "u" "sid" (fun _ => none) ⟨[], []⟩).2 ⟨"", none⟩ rfl⟩

/-- C1 counterexample: with the service returning the empty JSON array `[]`
at every round, `start` records 0 questions and the first `clarify` appends
an answer and 0 follow-up questions, so afterwards the session has 1 answer
and 0 questions asked: `len(answers) ≤ len(questions_asked)` fails after a
clarify call. -/
theorem C1_counterexample :
    (find_session (provide_clarification ⟨"s1", "a1"⟩ (fun _ => some "[]")
        (start_session ⟨"pitch", none⟩ "u" "s1" (fun _ => some "[]") ⟨[], []⟩).1).1 "s1").map
      (fun t => decide (t.context.clarifications.length ≤ t.context.questions_asked.length))
      = some false := rfl

/-- The session row stored by a clarify call: the answer is appended; if
ready, the status becomes `creating_agents`; if not, the follow-up questions
are appended to `questions_asked` and the status is untouched. -/
theorem provide_clarification_session (req : ClarificationRequest) (gen : Gen) (db : DB)
    (s : Session) (h : find_session db req.session_id = some s) :
    find_session (provide_clarification req gen db).1 req.session_id =
      some (if (determine_agent_creation_ready
          { s.context with
            clarifications := s.context.clarifications ++ [req.user_response] } gen).1
        then { s with
          status := "creating_agents",
          context := { s.context with
            clarifications := s.context.clarifications ++ [req.user_response] } }
        else { s with
          context := { s.context with
            clarifications := s.context.clarifications ++ [req.user_response],
            questions_asked := s.context.questions_asked ++
              (analyze_context_for_clarification s.context.user_input
                s.context.pdf_content gen).1 } }) := by
  rw [provide_clarification_eq req gen db s h]
  simp only
  by_cases hb : (determine_agent_creation_ready
      { s.context with
        clarifications := s.context.clarifications ++ [req.user_response] } gen).1 = true
  · rw [if_pos hb, if_pos hb]
    exact find_session_update_self _ h rfl
  · rw [if_neg hb, if_neg hb]
    exact find_session_update_self _ h rfl

/-- C1 amended: a clarify call leaves `len(answers) ≤ len(questions_asked)`
on the stored session whenever the strict inequality
`len(answers) < len(questions_asked)` held beforehand (as it does after any
round whose synthesized batch was nonempty); rounds whose parsed service
response is the empty array can destroy the plain invariant. -/
theorem C1_invariant_of_strict (req : ClarificationRequest) (gen : Gen) (db : DB)
    (s : Session) (h : find_session db req.session_id = some s)
    (hstrict : s.context.clarifications.length < s.context.questions_asked.length) :
    ∀ t, find_session (provide_clarification req gen db).1 req.session_id = some t →
      t.context.clarifications.length ≤ t.context.questions_asked.length := by
  intro t ht
  rw [provide_clarification_session req gen db s h] at ht
  injection ht with ht'
  subst ht'
  by_cases hb : (determine_agent_creation_ready
      { s.context with
        clarifications := s.context.clarifications ++ [req.user_response] } gen).1 = true
  · rw [if_pos hb]
    simp only [List.length_append, List.length_cons, List.length_nil]
    omega
  · rw [if_neg hb]
    simp only [List.length_append, List.length_cons, List.length_nil]
    omega

/-- C1 witness: a clarify call on a session with 0 answers and 1 question
asked preserves the invariant. -/
theorem C1_invariant_of_strict_witness :
    (⟨"s9", 1, "clarifying", ⟨"u", none, ["a"], ["q"]⟩⟩ : Session).context.clarifications.length ≤
      (⟨"s9", 1, "clarifying", ⟨"u", none, ["a"], ["q"]⟩⟩ : Session).context.questions_asked.length :=
  C1_invariant_of_strict ⟨"s9", "a"⟩ (fun _ => some "[]")
    ⟨[⟨"s9", 1, "clarifying", ⟨"u", none, [], ["q"]⟩⟩], []⟩
    ⟨"s9", 1, "clarifying", ⟨"u", none, [], ["q"]⟩⟩ rfl (by decide)
    ⟨"s9", 1, "clarifying", ⟨"u", none, ["a"], ["q"]⟩⟩ rfl

/-- C2 counterexample: `provide_clarification` has no status guard: on a
stored session with status `active` (rank 2) and two prior answers, a
clarify call whose readiness answer is `yes` writes status
`creating_agents` (rank 1) — a backward transition performed by the core. -/
theorem C2_counterexample :
    (find_session (provide_clarification ⟨"s2", "c"⟩ (fun _ => some "yes")
        ⟨[⟨"s2", 1, "active", ⟨"u", none, ["a", "b"], ["q1", "q2", "q3"]⟩⟩], []⟩).1 "s2").map
      (fun t => t.status) = some "creating_agents" ∧
    statusRank "creating_agents" < statusRank "active" :=
  ⟨rfl, by decide⟩

/-- C2 amended: the core's operations never move a session backward as long
as its stored status is one the core itself writes (`clarifying` or
`creating_agents`, rank ≤ 1): clarify then only keeps the status or writes
`creating_agents`; `get_session_status` never writes; `start_session` only
appends a fresh row, leaving existing rows unchanged.  But clarify on a
session whose status was set to `active` or `completed` elsewhere can write
`creating_agents` back (see the counterexample). -/
theorem C2_monotone_from_core_states (req : ClarificationRequest) (gen : Gen) (db : DB)
    (s : Session) (h : find_session db req.session_id = some s)
    (hs : statusRank s.status ≤ 1)
    (sid2 sid3 user : String) (sd : SessionCreate) :
    (∀ t, find_session (provide_clarification req gen db).1 req.session_id = some t →
      statusRank s.status ≤ statusRank t.status) ∧
    (get_session_status sid2 db).1 = db ∧
    db.sessions <+: (start_session sd user sid3 gen db).1.sessions := by
  refine ⟨?_, ?_, ?_⟩
  · intro t ht
    rw [provide_clarification_session req gen db s h] at ht
    injection ht with ht'
    subst ht'
    by_cases hb : (determine_agent_creation_ready
        { s.context with
          clarifications := s.context.clarifications ++ [req.user_response] } gen).1 = true
    · rw [if_pos hb]
      show statusRank s.status ≤ statusRank "creating_agents"
      simpa [statusRank] using hs
    · rw [if_neg hb]
  · cases h2 : find_session db sid2 <;> simp [get_session_status, h2]
  · exact List.prefix_append db.sessions _

/-- C2 witness: a clarify call on a `clarifying` session that becomes ready
moves it to `creating_agents` (rank does not decrease), reads leave the
store unchanged, and start preserves the existing rows. -/
theorem C2_monotone_from_core_states_witness :
    statusRank (⟨"s2", 1, "clarifying", ⟨"u", none, ["a", "b"], ["q"]⟩⟩ : Session).status ≤
      statusRank (⟨"s2", 1, "creating_agents", ⟨"u", none, ["a", "b", "c"], ["q"]⟩⟩ : Session).status ∧
    (get_session_status "zz"
      ⟨[⟨"s2", 1, "clarifying", ⟨"u", none, ["a", "b"], ["q"]⟩⟩], []⟩).1 =
      ⟨[⟨"s2", 1, "clarifying", ⟨"u", none, ["a", "b"], ["q"]⟩⟩], []⟩ ∧
    (⟨[⟨"s2", 1, "clarifying", ⟨"u", none, ["a", "b"], ["q"]⟩⟩], []⟩ : DB).sessions <+:
      (start_session ⟨"p", none⟩ "u" "s0" (fun _ => some "yes")
        ⟨[⟨"s2", 1, "clarifying", ⟨"u", none, ["a", "b"], ["q"]⟩⟩], []⟩).1.sessions :=
  ⟨(C2_monotone_from_core_states ⟨"s2", "c"⟩ (fun _ => some "yes")
      ⟨[⟨"s2", 1, "clarifying", ⟨"u", none, ["a", "b"], ["q"]⟩⟩], []⟩
      ⟨"s2", 1, "clarifying", ⟨"u", none, ["a", "b"], ["q"]⟩⟩ rfl (by decide)
      "zz" "s0" "u" ⟨"p", none⟩).1
     ⟨"s2", 1, "creating_agents", ⟨"u", none, ["a", "b", "c"], ["q"]⟩⟩ rfl,
   (C2_monotone_from_core_states ⟨"s2", "c"⟩ (fun _ => some "yes")
      ⟨[⟨"s2", 1, "clarifying", ⟨"u", none, ["a", "b"], ["q"]⟩⟩], []⟩
      ⟨"s2", 1, "clarifying", ⟨"u", none, ["a", "b"], ["q"]⟩⟩ rfl (by decide)
      "zz" "s0" "u" ⟨"p", none⟩).2.1,
   (C2_monotone_from_core_states ⟨"s2", "c"⟩ (fun _ => some "yes")
      ⟨[⟨"s2", 1, "clarifying", ⟨"u", none, ["a", "b"], ["q"]⟩⟩], []⟩
      ⟨"s2", 1, "clarifying", ⟨"u", none, ["a", "b"], ["q"]⟩⟩ rfl (by decide)
      "zz" "s0" "u" ⟨"p", none⟩).2.2⟩

/-- C3 counterexample: an empty parsed array is returned as-is (0 items, not
the fallback), and the ServiceError fallback differs from the
malformed-response fallback (their second questions differ) — so the failure
modes do not share one fixed 3-question fallback, and the result is not
always 1–4 items. -/
theorem C3_counterexample :
    (analyze_context_for_clarification "x" none (fun _ => some "[]")).1 = [] ∧
    (analyze_context_for_clarification "x" none (fun _ => none)).1
      = fallback_questions_exception ∧
    (analyze_context_for_clarification "x" none (fun _ => some "nope")).1
      = fallback_questions_parse ∧
    fallback_questions_exception ≠ fallback_questions_parse :=
  ⟨rfl, rfl, rfl, by decide⟩

/-- C3 amended: synthesis is total and bounded — its result always has at
most 4 items — and on ServiceError it returns the fixed 3-question exception
fallback; but a malformed (non-array) response yields a different fixed
3-question list, a parse error falls into the exception fallback, and an
empty parsed array is returned as the empty list. -/
theorem C3_synthesis_total (user_input : String) (pdf : Option String) (gen : Gen) :
    (analyze_context_for_clarification user_input pdf gen).1.length ≤ 4 ∧
    (gen (clarificationGenRequest user_input pdf) = none →
      (analyze_context_for_clarification user_input pdf gen).1
        = fallback_questions_exception) := by
  constructor
  · cases hg : gen (clarificationGenRequest user_input pdf) with
    | none =>
      simp [analyze_context_for_clarification, hg, fallback_questions_exception]
    | some raw =>
      by_cases hc : (pyStartsWith (pyStrip raw) "[" && pyEndsWith (pyStrip raw) "]") = true
      · cases hp : parseJsonStringList (pyStrip raw) with
        | none =>
          simp [analyze_context_for_clarification, hg, hc, hp, fallback_questions_exception]
        | some qs =>
          simp only [analyze_context_for_clarification, hg, hc, if_true, hp]
          exact List.length_take_le 4 qs
      · simp [analyze_context_for_clarification, hg, hc, fallback_questions_parse]
  · intro hn
    simp [analyze_context_for_clarification, hn]

/-- C3 witness: under ServiceError the bound and the fixed fallback hold. -/
theorem C3_synthesis_total_witness :
    (analyze_context_for_clarification "x" none (fun _ => none)).1.length ≤ 4 ∧
    (analyze_context_for_clarification "x" none (fun _ => none)).1
      = fallback_questions_exception :=
  ⟨(C3_synthesis_total "x" none (fun _ => none)).1,
   (C3_synthesis_total "x" none (fun _ => none)).2 rfl⟩

/-- C4 counterexample: two sessions identical except for their accumulated
clarification answers produce the same follow-up synthesis request (the last
request issued), so prior answers are not embedded in the prompt sent to the
generation service. -/
theorem C4_counterexample :
    (provide_clarification ⟨"sa", "z"⟩ (fun _ => none)
        ⟨[⟨"sa", 1, "clarifying", ⟨"u", some "doc", ["alpha"], ["q"]⟩⟩], []⟩).2.2.getLast? =
      (provide_clarification ⟨"sa", "z"⟩ (fun _ => none)
        ⟨[⟨"sa", 1, "clarifying", ⟨"u", some "doc", ["beta"], ["q"]⟩⟩], []⟩).2.2.getLast? ∧
    (["alpha", "z"] : List String) ≠ ["beta", "z"] :=
  ⟨rfl, by decide⟩

/-- A middle factor of the context string: `contextString u pdf` is
`"User input: " ++ u` followed by the (possibly empty) pdf part. -/
theorem contextString_embed (u : String) (pdf : Option String) :
    ∃ m : String, contextString u pdf = "User input: " ++ u ++ m := by
  cases pdf with
  | none => exact ⟨"", rfl⟩
  | some p =>
    by_cases hp : p = ""
    · exact ⟨"", by simp [contextString, hp]⟩
    · exact ⟨"\nPDF content: " ++ String.mk (p.data.take 1000) ++ "...",
        by simp [contextString, hp]⟩

/-- C4 amended: a non-ready clarify does invoke the synthesizer, but only on
the original input and document excerpt: the last generation request issued
is the clarification request over `user_input` and `pdf_content` (no
dependence on the accumulated answers), its prompt embeds the original input
and, when present and nonempty, the 1000-character-bounded document excerpt
— and it does not embed the prior clarification answers. -/
theorem C4_followup_prompt (req : ClarificationRequest) (gen : Gen) (db : DB)
    (s : Session) (h : find_session db req.session_id = some s)
    (hnr : (determine_agent_creation_ready
        { s.context with
          clarifications := s.context.clarifications ++ [req.user_response] } gen).1 = false) :
    (provide_clarification req gen db).2.2.getLast? =
      some (clarificationGenRequest s.context.user_input s.context.pdf_content) ∧
    (∃ a b : String, buildClarificationPrompt s.context.user_input s.context.pdf_content =
      a ++ s.context.user_input ++ b) ∧
    (∀ p : String, s.context.pdf_content = some p → ¬ p = "" →
      ∃ a b : String, buildClarificationPrompt s.context.user_input s.context.pdf_content =
        a ++ String.mk (p.data.take 1000) ++ b) := by
  refine ⟨?_, ?_, ?_⟩
  · rw [provide_clarification_eq req gen db s h]
    simp only
    rw [if_neg (by simp [hnr])]
    simp [analyze_trace, List.getLast?_concat]
  · obtain ⟨m, hm⟩ := contextString_embed s.context.user_input s.context.pdf_content
    refine ⟨"\n    Analyze this user's request for multi-persona feedback and generate 2-4 intelligent clarifying questions.\n    \n    Context: "
        ++ "User input: ",
      m ++ "\n    \n    Generate questions that would help understand:\n    - The user's specific goals and concerns\n    - Their knowledge level and background\n    - What kind of feedback they're seeking\n    - Any ambiguities that would affect agent creation\n    \n    Return ONLY a JSON array of questions, no explanations:\n    [\"Question 1?\", \"Question 2?\", \"Question 3?\"]\n    ",
      ?_⟩
    rw [buildClarificationPrompt, hm]
    simp only [String.append_assoc]
  · intro p hp hne
    refine ⟨"\n    Analyze this user's request for multi-persona feedback and generate 2-4 intelligent clarifying questions.\n    \n    Context: "
        ++ ("User input: " ++ s.context.user_input ++ "\nPDF content: "),
      "..." ++ "\n    \n    Generate questions that would help understand:\n    - The user's specific goals and concerns\n    - Their knowledge level and background\n    - What kind of feedback they're seeking\n    - Any ambiguities that would affect agent creation\n    \n    Return ONLY a JSON array of questions, no explanations:\n    [\"Question 1?\", \"Question 2?\", \"Question 3?\"]\n    ",
      ?_⟩
    rw [buildClarificationPrompt, hp]
    simp only [contextString, hne, if_false, String.append_assoc]
    try rfl

/-- C4 witness: a concrete non-ready clarify issues the synthesis request
over the original input and pdf content as its last request. -/
theorem C4_followup_prompt_witness :
    (provide_clarification ⟨"sa", "z"⟩ (fun _ => none)
        ⟨[⟨"sa", 1, "clarifying", ⟨"u", some "doc", ["alpha"], ["q"]⟩⟩], []⟩).2.2.getLast? =
      some (clarificationGenRequest "u" (some "doc")) :=
  (C4_followup_prompt ⟨"sa", "z"⟩ (fun _ => none)
    ⟨[⟨"sa", 1, "clarifying", ⟨"u", some "doc", ["alpha"], ["q"]⟩⟩], []⟩
    ⟨"sa", 1, "clarifying", ⟨"u", some "doc", ["alpha"], ["q"]⟩⟩ rfl rfl).1

/-- C7 counterexample: a batch of two identical questions is recorded with
`question_index` 0 for both entries (Python `list.index` finds the first
occurrence), not 0 and 1. -/
theorem C7_counterexample :
    ((start_session ⟨"pitch", none⟩ "u" "s4" (fun _ => some "[\"Q?\", \"Q?\"]")
        ⟨[], []⟩).1.conversations.map (fun c => c.message_metadata))
      = [some 0, some 0] ∧
    ([some 0, some 0] : List (Option Nat)) ≠ [some 0, some 1] :=
  ⟨rfl, by decide⟩

/-- C7 amended: each recorded entry's `question_index` is the index of the
first occurrence of its question string in the batch; for a batch with no
duplicate strings, the recorded indices are exactly `0, 1, …, len-1` in
order. -/
theorem C7_question_index (sid : String) (qs : List String) (h : qs.Nodup) :
    (questionConversations sid qs).map (fun c => c.message_metadata) =
      (List.range qs.length).map some := by
  unfold questionConversations
  rw [List.map_map]
  apply List.ext_getElem
  · simp
  · intro i h1 h2
    simp only [List.length_map] at h1 h2
    simp [List.indexOf_getElem h]

/-- C7 witness: a duplicate-free batch of two questions is recorded with
indices 0 and 1. -/
theorem C7_question_index_witness :
    (questionConversations "s" ["q1", "q2"]).map (fun c => c.message_metadata) =
      (List.range (["q1", "q2"] : List String).length).map some :=
  C7_question_index "s" ["q1", "q2"] (by decide)

end MPF
